import Mathlib

/-!
Verification of the monster-record formatter of `reformat_monster.py`
(PFMonsterDB_to_TTRPG_statblock).

The Python program maps one monster record (a JSON mapping) to one formatted
text document.  We shallowly embed the record shapes, the line-producing
formatter `write_monster_to_file`, the file-writing wrapper `write_monster`
and the batch driver loop, and prove the frozen claims about them.

Modelling conventions, documented once here:
* A Python dict with a known shape becomes a structure; optional keys become
  `Option` fields.  Dicts used as ordered tables become association lists
  (`List (String × _)`), preserving the record's insertion order, which is
  exactly what Python 3 dict iteration does.
* Python exceptions become `Except PyErr`.  `KeyError(k)` carries the key,
  `TypeError` carries the message text; `IndexError` and the `quit()` call in
  the racial-modifier handler (SystemExit) are the faults the batch driver
  does not catch.
* `print(a, b, ...)` joins its arguments with single spaces; each `print`
  call becomes one output line (strings already containing a newline are one
  "line" here as in the YAML body).
* Scalars that the program only passes through `str()` or prints raw (CR, XP,
  BAB, CMB, ability scores, HP table values, ...) are modelled as the string
  Python would print for them.
* The diagnostic accumulators `keys_used` and `source_dict` are write-only
  bookkeeping with no effect on the produced document; they are not modelled.
  (In the batch path exercised by the claims `source_dict` is a real dict, so
  the assignment at line 99 of the source cannot fail.)
* String primitives (`replace`, `in`, slicing, joins, decimal rendering) are
  implemented below by structural recursion on `List Char` so that every
  definition evaluates inside the kernel.
-/

namespace PF

/-- Decimal digits of a natural number, most significant first; the first
argument is recursion fuel (any fuel larger than the number is enough). -/
def decimalAux : Nat → Nat → List Char
  | 0, _ => []
  | fuel + 1, n =>
    if n < 10 then [Char.ofNat (48 + n)]
    else decimalAux fuel (n / 10) ++ [Char.ofNat (48 + n % 10)]

/-- Python `str` on a natural number. -/
def decimalStr (n : Nat) : String := ⟨decimalAux (n + 1) n⟩

/-- Python `str` on an `int`. -/
def pyStrInt (i : Int) : String :=
  if i < 0 then "-" ++ decimalStr i.natAbs else decimalStr i.natAbs

/-- Python sign-forcing format, the program's recurring pattern for bonuses. -/
def signedFmt (i : Int) : String :=
  if i < 0 then pyStrInt i else "+" ++ pyStrInt i

/-- Python `sep.join(list)`. -/
def joinSep (sep : String) : List String → String
  | [] => ""
  | [x] => x
  | x :: y :: rest => x ++ sep ++ joinSep sep (y :: rest)

/-- Python `', '.join(list)`, the program's most common join. -/
def joinComma (l : List String) : String := joinSep ", " l

/-- Concatenation of a list of strings. -/
def strConcat : List String → String
  | [] => ""
  | x :: xs => x ++ strConcat xs

/-- The helper `wq` from the source: wrap a composed string in literal double quotes. -/
def wq (s : String) : String := "\"" ++ s ++ "\""

/-- Does the second list start with the first one? -/
def isPre : List Char → List Char → Bool
  | [], _ => true
  | _ :: _, [] => false
  | p :: ps, c :: cs => p == c && isPre ps cs

/-- Does the list contain the first list as a contiguous block? -/
def containsSub (pat : List Char) : List Char → Bool
  | [] => isPre pat []
  | c :: cs => isPre pat (c :: cs) || containsSub pat cs

/-- Python `pat in s` on strings (substring test). -/
def pyInStr (pat s : String) : Bool := containsSub pat.data s.data

/-- One step of left-to-right, non-overlapping replacement; the `Nat`
argument is recursion fuel (the length of the scanned list is enough,
since every step consumes at least one character when `pat` is nonempty). -/
def replFuel (pat rep : List Char) : Nat → List Char → List Char
  | 0, l => l
  | _ + 1, [] => []
  | fuel + 1, c :: cs =>
    if isPre pat (c :: cs) then rep ++ replFuel pat rep fuel (cs.drop (pat.length - 1))
    else c :: replFuel pat rep fuel cs

/-- Python `s.replace(pat, rep)` for a nonempty `pat`. -/
def pyReplace (s pat rep : String) : String :=
  ⟨replFuel pat.data rep.data s.data.length s.data⟩

/-- Python slicing `s[n:]`. -/
def sliceFrom (s : String) (n : Nat) : String := ⟨s.data.drop n⟩

/-- Splitting at every non-overlapping occurrence of a nonempty separator;
the `Nat` argument is recursion fuel (the length of the scanned list is
enough, since every step consumes at least one character). -/
def splitFuel (sep : List Char) : Nat → List Char → List (List Char)
  | 0, l => [l]
  | _ + 1, [] => [[]]
  | fuel + 1, c :: cs =>
    if isPre sep (c :: cs) then [] :: splitFuel sep fuel (cs.drop (sep.length - 1))
    else
      match splitFuel sep fuel cs with
      | [] => [[c]]
      | part :: rest => (c :: part) :: rest

/-- Python `s.split(sep)` for a nonempty `sep`: always at least one part,
with one more part per separator occurrence. -/
def pySplit (s sep : String) : List String :=
  (splitFuel sep.data s.data.length s.data).map (fun l => ⟨l⟩)

/-! ## Python escaping (`to_desc`, source line 47)

`to_desc` runs `str(txt).encode('unicode_escape').decode('ASCII')` and prints
the result wrapped in double quotes on a `    desc:` line.  The
`unicode_escape` codec maps each code point as follows: backslash, tab,
newline and carriage return to their two-character escapes; other code points
below `0x20`, `0x7f` and `0x80`–`0xff` to `\xHH`; `0x100`–`0xffff` to
`\uHHHH`; larger ones to `\UHHHHHHHH`; everything else (the printable ASCII
range except backslash) unchanged. -/

/-- One lowercase hexadecimal digit. -/
def hexDigit (n : Nat) : Char :=
  if n < 10 then Char.ofNat (48 + n) else Char.ofNat (87 + n)

/-- Fixed-width big-endian lowercase hexadecimal digits. -/
def hexPad : Nat → Nat → List Char
  | 0, _ => []
  | w + 1, n => hexPad w (n / 16) ++ [hexDigit (n % 16)]

/-- The `unicode_escape` codec on one code point. -/
def escapeChar (c : Char) : String :=
  if c = Char.ofNat 92 then "\\\\"
  else if c = Char.ofNat 9 then "\\t"
  else if c = Char.ofNat 10 then "\\n"
  else if c = Char.ofNat 13 then "\\r"
  else if c.toNat < 32 ∨ c.toNat = 127 then "\\x" ++ ⟨hexPad 2 c.toNat⟩
  else if c.toNat < 127 then String.singleton c
  else if c.toNat < 256 then "\\x" ++ ⟨hexPad 2 c.toNat⟩
  else if c.toNat < 65536 then "\\u" ++ ⟨hexPad 4 c.toNat⟩
  else "\\U" ++ ⟨hexPad 8 c.toNat⟩

/-- The `unicode_escape` codec on a whole string. -/
def pyUnicodeEscape (s : String) : String := strConcat (s.data.map escapeChar)

/-- The line printed by `to_desc` (source lines 47–49). -/
def descLine (txt : String) : String := "    desc: " ++ wq (pyUnicodeEscape txt)

/-! ## Python runtime values and errors -/

/-- Python exceptions the program can raise while formatting one record. -/
inductive PyErr where
  | keyError (k : String)
  | typeError (msg : String)
  | indexError
  | systemExit
deriving Repr, DecidableEq

/-- What `str(e)` prints for the exceptions the driver catches. -/
def pyErrStr : PyErr → String
  | .keyError k => "\x27" ++ k ++ "\x27"
  | .typeError msg => msg
  | .indexError => "list index out of range"
  | .systemExit => ""

/-- Heterogeneous scalar values (the `senses` table stores either). -/
inductive PyVal where
  | vInt (n : Int)
  | vStr (s : String)
deriving Repr, DecidableEq

/-- Python `str` on such a value. -/
def PyVal.pyStr : PyVal → String
  | .vInt n => pyStrInt n
  | .vStr s => s

/-- Python type objects for the two scalar classes (plus `type` itself,
which is what `type(x)` returns and what classifies a type object). -/
inductive PyTypeObj where
  | intT
  | strT
deriving Repr, DecidableEq

/-- Python `type(v)` for a scalar value: the value's type object. -/
def pyTypeObjOf : PyVal → PyTypeObj
  | .vInt _ => .intT
  | .vStr _ => .strT

/-- A first-class Python object as far as `isinstance` is concerned: either
an ordinary scalar value or a type object (an instance of `type`). -/
inductive PyObj where
  | ofVal (v : PyVal)
  | ofType (t : PyTypeObj)
deriving Repr, DecidableEq

/-- Python `isinstance(x, int)`: true exactly on `int` instances.  A type
object is an instance of `type`, never of `int`. -/
def isinstanceInt : PyObj → Bool
  | .ofVal (.vInt _) => true
  | _ => false

/-! ## The record data model (§3 of the spec)

Each structure mirrors the sub-dict shapes the formatter actually reads. -/

/-- One entry of the `sources` list: a name and a page. -/
structure SourceRef where
  name : String
  page : Int
deriving Repr, DecidableEq

/-- The `initiative` dict: `bonus` is an int or a list of ints (line 138),
`ability` is optional (line 140). -/
structure InitiativeInfo where
  bonus : Sum Int (List Int)
  ability : Option String
deriving Repr, DecidableEq

/-- A value of the `AC.components` table: an int bonus or a list of
non-numeric component strings (lines 170–174). -/
inductive ACVal where
  | num (n : Int)
  | strs (l : List String)
deriving Repr, DecidableEq

/-- The `AC` dict (lines 165–176). -/
structure ACInfo where
  ac : Int
  touch : Int
  flat_footed : Int
  components : Option (List (String × ACVal))
deriving Repr, DecidableEq

/-- The `saves` dict (lines 189–193). -/
structure SavesInfo where
  fort : Int
  ref : Int
  will : Int
  other : Option String
deriving Repr, DecidableEq

/-- A value of the `skills._racial_mods` table (lines 330–345): a mapping
that contains a `"_"` key, a plain free-text value, or a nested mapping. -/
inductive RacialMod where
  | flat (v : Int)
  | raw (s : String)
  | nested (kvs : List (String × Int))
deriving Repr, DecidableEq

/-- The `skills` dict: ordinary skill entries (each skill's `"_"` value,
which may be Python `None`) in insertion order, and the `_racial_mods`
sub-table, which the skill loop skips (line 318). -/
structure SkillsInfo where
  entries : List (String × Option Int)
  racial_mods : Option (List (String × RacialMod))
deriving Repr, DecidableEq

/-- A value of the `speeds` table: a number or free text. -/
inductive SpeedVal where
  | num (n : Int)
  | txt (s : String)
deriving Repr, DecidableEq

/-- Python `str` of a speed value. -/
def SpeedVal.pyStr : SpeedVal → String
  | .num n => pyStrInt n
  | .txt s => s

/-- One attack entry: only its `text` field is read (lines 249–255). -/
structure AttackRef where
  text : String
deriving Repr, DecidableEq

/-- The `attacks` dict (lines 247–258). -/
structure AttacksInfo where
  melee : Option (List (List AttackRef))
  ranged : Option (List (List AttackRef))
  special : Option (List String)
deriving Repr, DecidableEq

/-- The `ecology` dict (lines 363–375). -/
structure EcologyInfo where
  environment : Option String
  organization : Option String
  treasure : Option (List String)
  treasure_type : Option String
deriving Repr, DecidableEq

/-- One entry of `spells.sources` (lines 386–392, 415–419). -/
structure SpellSource where
  srcType : String
  CL : Int
  slots : Option (List (String × Int))
deriving Repr, DecidableEq

/-- One entry of `spells.entries` (lines 394–406).  The `source` field is
present in the data but never read by the spells formatter. -/
structure SpellEntry where
  source : String
  level : Nat
  name : String
  count : Option Int
  DC : Option Int
deriving Repr, DecidableEq

/-- The `spells` dict. -/
structure SpellsInfo where
  sources : List SpellSource
  entries : List SpellEntry
deriving Repr, DecidableEq

/-- One entry of `psychic_magic.sources` (line 428). -/
structure PsychicSource where
  CL : Int
  concentration : Int
deriving Repr, DecidableEq

/-- One entry of `psychic_magic.entries` (lines 430–437). -/
structure PsychicEntry where
  name : String
  PE : Option Int
  DC : Option Int
deriving Repr, DecidableEq

/-- The `psychic_magic` dict. -/
structure PsychicInfo where
  sources : List PsychicSource
  entries : List PsychicEntry
  PE : Int
deriving Repr, DecidableEq

/-- One entry of `spell_like_abilities.sources` (lines 444–452). -/
structure SLASource where
  name : String
  CL : Int
  concentration : Option Int
deriving Repr, DecidableEq

/-- One entry of `spell_like_abilities.entries` (lines 454–468). -/
structure SLAEntry where
  source : String
  name : String
  freq : String
  DC : Option Int
deriving Repr, DecidableEq

/-- The `spell_like_abilities` dict. -/
structure SLAInfo where
  sources : List SLASource
  entries : List SLAEntry
deriving Repr, DecidableEq

/-- One entry of the `DR` list (lines 207–211). -/
structure DRRef where
  amount : Int
  weakness : String
deriving Repr, DecidableEq

/-- The `ability_scores` dict; values are printed through `str()` (some
monsters store a dash), so they are modelled as the printed strings. -/
structure AbilityScores where
  STR : String
  DEX : String
  CON : String
  INT : String
  WIS : String
  CHA : String
deriving Repr, DecidableEq

/-- A monster record: every top-level field the formatter reads.  `none`
models the key being absent from the JSON object. -/
structure MonsterRecord where
  title2 : Option String := none
  sources : Option (List SourceRef) := none
  CR : Option String := none
  XP : Option String := none
  race : Option String := none
  classes : Option (List String) := none
  alignment : Option String := none
  size : Option String := none
  type : Option String := none
  subtypes : Option (List String) := none
  initiative : Option InitiativeInfo := none
  skills : Option SkillsInfo := none
  senses : Option (List (String × PyVal)) := none
  auras : Option (List String) := none
  AC : Option ACInfo := none
  HP : Option (List (String × String)) := none
  saves : Option SavesInfo := none
  immunities : Option (List String) := none
  resistances : Option (List (String × Int)) := none
  DR : Option (List DRRef) := none
  defensive_abilities : Option (List String) := none
  SR : Option String := none
  weaknesses : Option (List String) := none
  speeds : Option (List (String × SpeedVal)) := none
  attacks : Option AttacksInfo := none
  space : Option String := none
  reach : Option String := none
  reach_other : Option String := none
  tactics : Option (List (String × String)) := none
  ability_scores : Option AbilityScores := none
  BAB : Option String := none
  CMB : Option String := none
  CMB_other : Option String := none
  CMD : Option String := none
  CMD_other : Option String := none
  feats : Option (List String) := none
  languages : Option (List String) := none
  special_qualities : Option (List String) := none
  gear : Option (List (String × List String)) := none
  ecology : Option EcologyInfo := none
  special_abilities : Option (List (String × String)) := none
  spells : Option SpellsInfo := none
  psychic_magic : Option PsychicInfo := none
  spell_like_abilities : Option SLAInfo := none
  desc_short : Option String := none
  desc_long : Option String := none
deriving Repr

/-! ## The field formatter, section by section

`write_monster_to_file` (source lines 75–499) is split here into one
definition per contiguous group of `print` calls, composed in source order.
Sections that can raise return `Except PyErr (List String)`; the others
return `List String` directly.  A failing section models the Python
exception aborting the whole call, so the (partially written) earlier lines
are not part of the result — the claims never observe partial documents. -/

/-- Front matter and statblock opening (lines 87–97). -/
def headerLines (title : String) : List String :=
  ["---", "statblock: inline", "tags: monster", "name: " ++ title, "---",
   "```statblock", "layout: Basic Pathfinder 1e Layout"]

/-- The source-name transformation of lines 100–103: the program compares
`source[8:]` — the characters from index 8 on — with `"Bestiary"`, then
replaces every `#` with `"No. "`. -/
def sourceDisplay (source : String) : String :=
  let s := if sliceFrom source 8 = "Bestiary" then "Pathfinder RPG " ++ source else source
  if pyInStr "#" s then pyReplace s "#" "No. " else s

/-- The `source:` line (lines 98–104).  `monster_in['sources'][0]` raises
`KeyError` when the field is absent and `IndexError` on an empty list.
Note the two spaces: `print('source: ', ...)` adds a separator after the
argument's own trailing space. -/
def sourceSection (m : MonsterRecord) : Except PyErr (List String) :=
  match m.sources with
  | none => .error (.keyError "sources")
  | some [] => .error .indexError
  | some (s0 :: _) => .ok ["source:  " ++ wq (sourceDisplay s0.name)]

/-- The fixed scalar block (lines 106–134): CR, repeated name, XP, optional
race and class list, alignment, size, type, optional subtype list. -/
def coreScalars (m : MonsterRecord) (title : String) : Except PyErr (List String) :=
  match m.CR with
  | none => .error (.keyError "CR")
  | some cr =>
  match m.XP with
  | none => .error (.keyError "XP")
  | some xp =>
  match m.alignment with
  | none => .error (.keyError "alignment")
  | some al =>
  match m.size with
  | none => .error (.keyError "size")
  | some sz =>
  match m.type with
  | none => .error (.keyError "type")
  | some ty =>
    .ok (["Monster_CR: " ++ cr, "name: " ++ title, "Monster_XP: " ++ xp]
      ++ (match m.race with | some r => ["race: " ++ r] | none => [])
      ++ (match m.classes with
          | some cs => ["class: " ++ wq (joinComma cs)]
          | none => [])
      ++ ["alignment: " ++ al, "size: " ++ sz, "type: " ++ ty]
      ++ (match m.subtypes with
          | some st => ["subtype: " ++ wq ("(" ++ joinComma st ++ ")")]
          | none => []))

/-- The `INI:` line (lines 137–143): single bonus, or slash-joined list with
or without the ability name.  With the ability, `print` separates the
`'; '`-suffixed join and the name with one more space. -/
def iniSection (m : MonsterRecord) : Except PyErr (List String) :=
  match m.initiative with
  | none => .error (.keyError "initiative")
  | some ini =>
    match ini.bonus with
    | .inl b => .ok ["INI: " ++ signedFmt b]
    | .inr bs =>
      match ini.ability with
      | some ab =>
        .ok ["INI: " ++ joinSep "/" (bs.map signedFmt) ++ "; " ++ " " ++ ab]
      | none => .ok ["INI: " ++ joinSep "/" (bs.map signedFmt)]

/-- The `perception:` line (lines 145–146).  The `skills` dict is indexed
unconditionally; a stored Python `None` bonus would make the `+`-format
raise `TypeError`. -/
def perceptionSection (m : MonsterRecord) : Except PyErr (List String) :=
  match m.skills with
  | none => .error (.keyError "skills")
  | some sk =>
    match List.lookup "Perception" sk.entries with
    | none => .ok []
    | some none =>
      .error (.typeError "unsupported format string passed to NoneType.__format__")
    | some (some n) => .ok ["perception: " ++ signedFmt n]

/-- One item of the senses list (lines 151–155): the numeric branch tests
`isinstance(type(value), int)` — the type object of the value, not the
value itself. -/
def senseItem (k : String) (v : PyVal) : String :=
  if isinstanceInt (.ofType (pyTypeObjOf v)) then k ++ " " ++ v.pyStr else k

/-- The `senses:` line (lines 148–156). -/
def sensesSection (m : MonsterRecord) : List String :=
  match m.senses with
  | none => []
  | some l => ["senses: " ++ wq (joinComma (l.map (fun p => senseItem p.1 p.2)))]

/-- The `aura:` line (lines 158–163): names only, comma-joined. -/
def aurasSection (m : MonsterRecord) : List String :=
  match m.auras with
  | none => []
  | some l => ["aura: " ++ wq (joinComma l)]

/-- The `AC:` line (lines 165–176): base/touch/flat-footed triple, with an
optional parenthesized breakdown (signed numeric components comma-joined,
then each non-numeric component list appended after a semicolon). -/
def acSection (m : MonsterRecord) : Except PyErr (List String) :=
  match m.AC with
  | none => .error (.keyError "AC")
  | some a =>
    let base := pyStrInt a.ac ++ ", touch " ++ pyStrInt a.touch
      ++ ", flat-footed " ++ pyStrInt a.flat_footed
    let acStr :=
      match a.components with
      | none => base
      | some comps =>
        let bonuses := comps.filterMap (fun p =>
          match p.2 with
          | .num n => some (p.1 ++ " " ++ signedFmt n)
          | .strs _ => none)
        let at_end := comps.foldl (fun acc p =>
          match p.2 with
          | .strs l => acc ++ "; " ++ joinComma l
          | .num _ => acc) ""
        base ++ " (" ++ joinComma bonuses ++ at_end ++ ")"
    .ok ["AC: " ++ wq acStr]

/-- The rendered `HP_extra` items (lines 179–182): every HP-table entry
except the `HP` and `long` keys, underscores in the key shown as spaces. -/
def hpSpecial (hp : List (String × String)) : List String :=
  (hp.filter (fun p => p.1 != "HP" && p.1 != "long")).map
    (fun p => pyReplace p.1 "_" " " ++ " " ++ p.2)

/-- The `HP:`, `HP_extra:` and `HD:` lines (lines 178–187). -/
def hpSection (m : MonsterRecord) : Except PyErr (List String) :=
  match m.HP with
  | none => .error (.keyError "HP")
  | some hp =>
    match List.lookup "HP" hp with
    | none => .error (.keyError "HP")
    | some hpv =>
      match List.lookup "long" hp with
      | none => .error (.keyError "long")
      | some lng =>
        .ok ["HP: " ++ hpv,
             "HP_extra: " ++ wq (joinSep "; " (hpSpecial hp)),
             "HD: " ++ lng]

/-- The `saves:` lines (lines 189–193). -/
def savesSection (m : MonsterRecord) : Except PyErr (List String) :=
  match m.saves with
  | none => .error (.keyError "saves")
  | some sv =>
    .ok (["saves: " ++ wq ("Fort " ++ signedFmt sv.fort ++ ", Ref " ++ signedFmt sv.ref
            ++ ", Will " ++ signedFmt sv.will)]
      ++ (match sv.other with
          | some o => ["saves_other: " ++ wq o]
          | none => []))

/-- The optional defense lines (lines 195–223): immunities, resistances,
DR, defensive abilities, SR, weaknesses. -/
def defenseSection (m : MonsterRecord) : List String :=
  (match m.immunities with
   | some l => ["immune: " ++ wq (joinComma l)]
   | none => [])
  ++ (match m.resistances with
      | some l => ["resist: " ++ wq (joinComma (l.map (fun p => p.1 ++ " " ++ pyStrInt p.2)))]
      | none => [])
  ++ (match m.DR with
      | some l => ["DR: " ++ wq (joinComma (l.map (fun d => pyStrInt d.amount ++ "/" ++ d.weakness)))]
      | none => [])
  ++ (match m.defensive_abilities with
      | some l => ["defensive_abilities: " ++ wq (joinComma l)]
      | none => [])
  ++ (match m.SR with
      | some v => ["SR: " ++ v]
      | none => [])
  ++ (match m.weaknesses with
      | some l => ["weak: " ++ wq (joinComma l)]
      | none => [])

/-- The fly entry of the speed list (lines 229–235): maneuverability wins
over the `fly_other` free text, else the bare speed.  The parenthesized
text is concatenated without `str()`, so a numeric value there would raise
`TypeError`. -/
def flyPart (spd : List (String × SpeedVal)) : Except PyErr (List String) :=
  match List.lookup "fly" spd with
  | none => .ok []
  | some fv =>
    match List.lookup "fly_maneuverability" spd with
    | some (.txt s) => .ok ["fly " ++ fv.pyStr ++ " ft. (" ++ s ++ ")"]
    | some (.num _) =>
      .error (.typeError "can only concatenate str (not \x22int\x22) to str")
    | none =>
      match List.lookup "fly_other" spd with
      | some (.txt s) => .ok ["fly " ++ fv.pyStr ++ " ft. (" ++ s ++ ")"]
      | some (.num _) =>
        .error (.typeError "can only concatenate str (not \x22int\x22) to str")
      | none => .ok ["fly " ++ fv.pyStr ++ " ft."]

/-- One iteration of the speed loop (lines 236–243): `base`, `fly` and
`fly_maneuverability` are skipped — but `fly_other` is not — and a
`base_other` key is rendered as its bare value (behind the separator space
`print` would not add, the code adds one itself). -/
def speedLoopItem (p : String × SpeedVal) : List String :=
  if p.1 = "base" then []
  else if p.1 = "fly" then []
  else if p.1 = "fly_maneuverability" then []
  else if p.1 = "base_other" then [" " ++ p.2.pyStr]
  else [p.1 ++ " " ++ p.2.pyStr ++ " ft."]

/-- The `speed:` line (lines 225–244). -/
def speedSection (m : MonsterRecord) : Except PyErr (List String) :=
  match m.speeds with
  | none => .error (.keyError "speeds")
  | some spd =>
    let basePart :=
      match List.lookup "base" spd with
      | some bv => [bv.pyStr ++ " ft."]
      | none => []
    match flyPart spd with
    | .error e => .error e
    | .ok fl =>
      .ok ["speed: " ++ wq (joinComma (basePart ++ fl ++ List.flatten (spd.map speedLoopItem)))]

/-- The line for one attack kind (lines 247–256): the `[0]` index of an
empty melee or ranged list raises `IndexError`, an absent key prints
nothing, and otherwise the first group's `text` fields are comma-joined. -/
def firstGroupLines (tag : String) : Option (List (List AttackRef)) → Except PyErr (List String)
  | none => .ok []
  | some [] => .error .indexError
  | some (g :: _) => .ok [tag ++ wq (joinComma (g.map AttackRef.text))]

/-- The attack lines (lines 246–258), melee first as in the source. -/
def attacksSection (m : MonsterRecord) : Except PyErr (List String) :=
  match m.attacks with
  | none => .ok []
  | some atk =>
    match firstGroupLines "melee: " atk.melee with
    | .error e => .error e
    | .ok ml =>
      match firstGroupLines "ranged: " atk.ranged with
      | .error e => .error e
      | .ok rl =>
        .ok (ml ++ rl
          ++ (match atk.special with
              | some sp => ["special_attacks: " ++ wq (joinComma sp)]
              | none => []))

/-- The `space:`/`reach:` lines (lines 260–272); `reach_other` is only
consulted when `reach` is present. -/
def spaceReachSection (m : MonsterRecord) : List String :=
  (match m.space with
   | some s => ["space: " ++ s ++ " ft."]
   | none => [])
  ++ (match m.reach with
      | none => []
      | some r =>
        match m.reach_other with
        | some ro => ["reach: " ++ r ++ " ft. (" ++ ro ++ ")"]
        | none => ["reach: " ++ r ++ " ft."])

/-- The tactics block (lines 274–279). -/
def tacticsSection (m : MonsterRecord) : List String :=
  match m.tactics with
  | none => []
  | some ts =>
    "tactics:" :: List.flatten (ts.map (fun p => ["  - name: " ++ p.1, descLine p.2]))

/-- The six ability scores (lines 281–288). -/
def statsSection (m : MonsterRecord) : Except PyErr (List String) :=
  match m.ability_scores with
  | none => .error (.keyError "ability_scores")
  | some ab =>
    .ok ["pf1e_stats: [" ++ joinComma [ab.STR, ab.DEX, ab.CON, ab.INT, ab.WIS, ab.CHA] ++ "]"]

/-- BAB, CMB and CMD lines (lines 290–305), with the optional free-text
modifiers in parentheses. -/
def babSection (m : MonsterRecord) : Except PyErr (List String) :=
  match m.BAB with
  | none => .error (.keyError "BAB")
  | some bab =>
  match m.CMB with
  | none => .error (.keyError "CMB")
  | some cmb =>
  match m.CMD with
  | none => .error (.keyError "CMD")
  | some cmd =>
    .ok (["BAB: " ++ bab]
      ++ [match m.CMB_other with
          | some o => "CMB: " ++ cmb ++ " (" ++ o ++ ")"
          | none => "CMB: " ++ cmb]
      ++ [match m.CMD_other with
          | some o => "CMD: " ++ cmd ++ " (" ++ o ++ ")"
          | none => "CMD: " ++ cmd])

/-- The `feats:` line (lines 307–312): names only. -/
def featsSection (m : MonsterRecord) : List String :=
  match m.feats with
  | none => []
  | some l => ["feats: " ++ wq (joinComma l)]

/-- One item of the skills list (lines 317–325): a blank value stands for a
stored Python `None`. -/
def skillItem (p : String × Option Int) : String :=
  p.1 ++ " " ++ (match p.2 with | none => "" | some n => signedFmt n)

/-- The lines for one racial modifier (lines 330–345).  A mapping with a
`"_"` key prints that value; otherwise a `_other` key prints the raw value
(a nested mapping would print its dict repr); any other key iterates the
nested mapping.  A free-text value under another key is iterated
character by character: an empty string makes the loop body run zero
times (nothing printed, no fault), and a nonempty one is indexed with its
first character, making the inner handler print diagnostics and call
`quit()`; a free-text value containing an underscore is indexed with
`'_'` first, raising `TypeError`. -/
def racialModLines (key : String) (v : RacialMod) : Except PyErr (List String) :=
  match v with
  | .flat n => .ok ["- " ++ key ++ " " ++ pyStrInt n]
  | .raw s =>
    if pyInStr "_" s then .error (.typeError "string indices must be integers")
    else if key = "_other" then .ok ["- " ++ s]
    else if s = "" then .ok []
    else .error .systemExit
  | .nested kvs =>
    if key = "_other" then
      .ok ["- " ++ "\x7b" ++ joinComma (kvs.map (fun q => "\x27" ++ q.1 ++ "\x27: " ++ pyStrInt q.2)) ++ "\x7d"]
    else .ok (kvs.map (fun q => "- " ++ key ++ " " ++ pyStrInt q.2))

/-- Sequential composition of per-entry line producers. -/
def seqLines : List (Except PyErr (List String)) → Except PyErr (List String)
  | [] => .ok []
  | x :: xs =>
    match x with
    | .error e => .error e
    | .ok a =>
      match seqLines xs with
      | .error e => .error e
      | .ok b => .ok (a ++ b)

/-- The skills block (lines 314–345): the comma-joined skill list, then the
racial-modifiers sub-block when present. -/
def skillsSection (m : MonsterRecord) : Except PyErr (List String) :=
  match m.skills with
  | none => .ok []
  | some sk =>
    let base := ["skills: " ++ wq (joinComma (sk.entries.map skillItem))]
    match sk.racial_mods with
    | none => .ok base
    | some rms =>
      match seqLines (rms.map (fun p => racialModLines p.1 p.2)) with
      | .error e => .error e
      | .ok rml => .ok (base ++ ["racial_modifiers:"] ++ rml)

/-- Languages, special qualities and gear (lines 347–360). -/
def miscSection (m : MonsterRecord) : List String :=
  (match m.languages with
   | some l => ["languages: " ++ wq (joinComma l)]
   | none => [])
  ++ (match m.special_qualities with
      | some l => ["special_qualities: " ++ wq (joinComma l)]
      | none => [])
  ++ (match m.gear with
      | none => []
      | some g =>
        "gear:" :: List.flatten (g.map (fun p => ["  - name: " ++ p.1, descLine (joinComma p.2)])))

/-- The ecology block (lines 362–375).  With a `treasure_type` but no
`treasure` list, only the desc line is printed (no name line). -/
def ecologySection (m : MonsterRecord) : List String :=
  match m.ecology with
  | none => []
  | some e =>
    "ecology:" ::
      ((match e.environment with
        | some v => ["  - name: Environment", descLine v]
        | none => [])
      ++ (match e.organization with
          | some v => ["  - name: Organisation", descLine v]
          | none => [])
      ++ (match e.treasure, e.treasure_type with
          | some tr, some tt => ["  - name: Treasure", descLine (tt ++ " (" ++ joinComma tr ++ ")")]
          | none, some tt => [descLine tt]
          | _, none => []))

/-- The special-abilities block (lines 377–382). -/
def saSection (m : MonsterRecord) : List String :=
  match m.special_abilities with
  | none => []
  | some l =>
    "special_abilities:" :: List.flatten (l.map (fun p => ["  - name: " ++ p.1, descLine p.2]))

/-- The optional `(DC…)` suffix of one spell (lines 400–401; no space
before the number here). -/
def spellDC (e : SpellEntry) : String :=
  match e.DC with
  | some d => " (DC" ++ pyStrInt d ++ ")"
  | none => ""

/-- One spell's text with the optional `<n>x` count (lines 398–402). -/
def spellText (e : SpellEntry) : String :=
  (match e.count with | some c => pyStrInt c ++ "x" | none => "") ++ e.name

/-- Appending one spell to the per-level dict (lines 403–406): append to an
existing level's comma-joined value, else push a new key at the back —
exactly Python dict insertion order. -/
def addSpell (acc : List (String × String)) (k text : String) : List (String × String) :=
  match acc with
  | [] => [(k, text)]
  | (k0, v0) :: rest =>
    if k0 = k then (k0, v0 ++ ", " ++ text) :: rest
    else (k0, v0) :: addSpell rest k text

/-- The per-level spell dict built from the whole `entries` list
(lines 393–406); the level key is `str(entry['level'])`. -/
def groupSpells (entries : List SpellEntry) : List (String × String) :=
  entries.foldl (fun acc e => addSpell acc (decimalStr e.level) (spellText e ++ spellDC e)) []

/-- The ordinal suffix of a level key (lines 409–414): the `nth` dict for
`"1"`/`"2"`/`"3"`, `"th"` for any other key except `"0"`. -/
def ordinalSuffixFor (key : String) : String :=
  if key = "1" then "st"
  else if key = "2" then "nd"
  else if key = "3" then "rd"
  else if key = "0" then "" else "th"

/-- The header of one spell level (lines 408–419): key plus ordinal suffix,
annotated from the source's slot table when it has the key. -/
def levelHeader (src : SpellSource) (key : String) : String :=
  let h := key ++ ordinalSuffixFor key
  match src.slots with
  | some slots =>
    match List.lookup key slots with
    | some c => if key = "0" then h ++ " (at-will)" else h ++ " (" ++ pyStrInt c ++ "/day)"
    | none => h
  | none => h

/-- The lines one spell source contributes (lines 386–421): the type header
(nothing for a type other than `prepared`/`known`), an unnamed entry with
the caster level, then one entry per level of the grouped dict — built from
all entries of the record, with no filtering by source. -/
def spellsForSource (src : SpellSource) (entries : List SpellEntry) : List String :=
  (if src.srcType = "prepared" then ["spells_prepared:"]
   else if src.srcType = "known" then ["known_spells:"] else [])
  ++ ["  - name:", descLine ("(CL " ++ pyStrInt src.CL ++ ")")]
  ++ List.flatten ((groupSpells entries).map
      (fun p => ["  - name: " ++ levelHeader src p.1, descLine p.2]))

/-- The spells block (lines 384–421). -/
def spellsSection (m : MonsterRecord) : List String :=
  match m.spells with
  | none => []
  | some sp => List.flatten (sp.sources.map (fun s => spellsForSource s sp.entries))

/-- One psychic-magic entry's text (lines 430–437): the DC rider is only
shown when the entry has a point cost. -/
def psychicEntryText (e : PsychicEntry) : String :=
  match e.PE with
  | some pe =>
    e.name ++ " (PE" ++ pyStrInt pe
      ++ (match e.DC with | some d => "; DC" ++ pyStrInt d | none => "") ++ ")"
  | none => e.name

/-- The psychic-magic block (lines 423–439); the unnamed header's text ends
with an unmatched closing parenthesis, as printed by the `+)`-format. -/
def psychicSection (m : MonsterRecord) : List String :=
  match m.psychic_magic with
  | none => []
  | some pm =>
    List.flatten (pm.sources.map (fun s =>
      ["psychic_magic:", "  - name:",
       descLine (pyStrInt s.CL ++ "; Concentration " ++ signedFmt s.concentration ++ ")"),
       "  - name: " ++ pyStrInt pm.PE ++ " PE",
       descLine (joinComma (pm.entries.map psychicEntryText))]))

/-- The optional `(DC …)` suffix of one spell-like ability (lines 458–467;
with a space before the number, unlike the spells block). -/
def slaDC (e : SLAEntry) : String :=
  match e.DC with
  | some d => " (DC " ++ pyStrInt d ++ ")"
  | none => ""

/-- The per-frequency dict of one source's spell-like abilities
(lines 453–468): entries of other sources are skipped. -/
def groupSLA (srcName : String) (entries : List SLAEntry) : List (String × String) :=
  entries.foldl (fun acc e =>
    if e.source ≠ srcName then acc
    else addSpell acc e.freq (e.name ++ slaDC e)) []

/-- The lines one spell-like-ability source contributes (lines 444–471):
a `default` source renders an unlabeled name entry. -/
def slaForSource (s : SLASource) (entries : List SLAEntry) : List String :=
  (if s.name = "default" then ["  - name:"] else ["  - name: " ++ s.name])
  ++ [descLine (match s.concentration with
      | some c => "(CL " ++ pyStrInt s.CL ++ "; Concentration " ++ signedFmt c ++ ")"
      | none => "(CL " ++ pyStrInt s.CL ++ ")")]
  ++ List.flatten ((groupSLA s.name entries).map
      (fun p => ["  - name: " ++ p.1, descLine p.2]))

/-- The spell-like-abilities block (lines 441–471). -/
def slaSection (m : MonsterRecord) : List String :=
  match m.spell_like_abilities with
  | none => []
  | some sla =>
    "spell-like_abilities:" :: List.flatten (sla.sources.map (fun s => slaForSource s sla.entries))

/-- The trailing sources list (lines 473–478): every source, with `#`
replaced by `No. ` (but no Bestiary prefixing here) and the page as desc. -/
def sourcesFooterSection (m : MonsterRecord) : List String :=
  match m.sources with
  | none => []
  | some srcs =>
    "sources:" :: List.flatten (srcs.map (fun s =>
      ["  - name: " ++ wq (pyReplace s.name "#" "No. "), descLine (pyStrInt s.page)]))

/-- Short description, closing fence, long description, source link and the
encounter table (lines 480–499). -/
def tailSection (m : MonsterRecord) (title : String) (url : Option String) : List String :=
  (match m.desc_short with | some d => ["desc_short: " ++ d] | none => [])
  ++ ["```"]
  ++ (match m.desc_long with | some d => ["# Description", d] | none => [])
  ++ (match url with
      | some u => ["# Source Link", "[Archives of Nethys](" ++ u ++ ")"]
      | none => [])
  ++ ["```encounter-table", "name: " ++ title, "creatures:", "  - 1: " ++ title, "```"]

/-- The whole field formatter `write_monster_to_file` (lines 75–499): the
sections above in source order; the first failing field access aborts the
call with its exception. -/
def write_monster_to_file (m : MonsterRecord) (url : Option String) :
    Except PyErr (List String) := do
  let title ← match m.title2 with
    | none => Except.error (.keyError "title2")
    | some t => Except.ok t
  let l2 ← sourceSection m
  let l3 ← coreScalars m title
  let l4 ← iniSection m
  let l5 ← perceptionSection m
  let l8 ← acSection m
  let l9 ← hpSection m
  let l10 ← savesSection m
  let l12 ← speedSection m
  let l13 ← attacksSection m
  let l16 ← statsSection m
  let l17 ← babSection m
  let l19 ← skillsSection m
  pure (headerLines title ++ l2 ++ l3 ++ l4 ++ l5
    ++ sensesSection m ++ aurasSection m ++ l8 ++ l9 ++ l10
    ++ defenseSection m ++ l12 ++ l13 ++ spaceReachSection m ++ tacticsSection m
    ++ l16 ++ l17 ++ featsSection m ++ l19 ++ miscSection m ++ ecologySection m
    ++ saSection m ++ spellsSection m ++ psychicSection m ++ slaSection m
    ++ sourcesFooterSection m ++ tailSection m title url)

/-! ## The document writer and batch driver -/

/-- The output directory: file name to content.  `some lines` is a
completely written document; `none` marks a file that `open(…, 'x')`
created but whose write was aborted by an exception mid-way. -/
def FileSys := List (String × Option (List String))

/-- Is there already a file of this name? -/
def fileExists (fs : FileSys) (name : String) : Bool :=
  (List.lookup name fs).isSome

/-- The wrapper `write_monster` with a file name (lines 65–72): exclusive creation; an
existing file is reported (naming the record's source key) and left
untouched, the `FileExistsError` being caught; any other exception
propagates, leaving the newly created file behind. -/
def write_monster (m : MonsterRecord) (filename url : String) (fs : FileSys) :
    FileSys × List String × Option PyErr :=
  if fileExists fs filename then
    (fs, ["ERROR: file " ++ filename ++ " already exists while processing key " ++ url], none)
  else
    match write_monster_to_file m (some url) with
    | .ok lines => ((filename, some lines) :: fs, [], none)
    | .error e => ((filename, none) :: fs, [], some e)

/-- Python `'/'` sanitizing of the title (lines 574, 577). -/
def sanitizeTitle (t : String) : String := pyReplace t "/" " or "

/-- The NPC test `'NPCDisplay' in key` (line 573). -/
def isNPCKey (key : String) : Bool := pyInStr "NPCDisplay" key

/-- Does the driver's `except (KeyError, TypeError)` clause catch this? -/
def driverCatches : PyErr → Bool
  | .keyError _ => true
  | .typeError _ => true
  | .indexError => false
  | .systemExit => false

/-- The driver's per-record error line (line 581):
`print('ERROR: ', e, 'with', key)`. -/
def driverMsg (e : PyErr) (key : String) : String :=
  "ERROR:  " ++ pyErrStr e ++ " with " ++ key

/-- The driver's lines 571–572:
`subdir = key.split('/')[3].split('.')[0]` then
`subdir = subdir.replace('Display', '')`.  The result is never used
afterwards, but the `[3]` indexing raises an `IndexError` — which the
driver's `except (KeyError, TypeError)` clause does not catch, so the
whole run terminates — whenever the key has fewer than four
`/`-segments.  (`split` never returns an empty list, so the `[0]`
indexing cannot fail; `headD` stands for it.) -/
def subdirOf (key : String) : Except PyErr String :=
  match (pySplit key "/").drop 3 with
  | [] => .error .indexError
  | seg :: _ => .ok (pyReplace ((pySplit seg ".").headD "") "Display" "")

/-- One iteration of the batch loop (lines 565–581): compute the unused
`subdir` (whose `IndexError` on a short key would escape the `except`
clause), then the file name from the (possibly NPC-prefixed and mutated)
title, call `write_monster`, catch `KeyError`/`TypeError` with a log
line, and hand the state to the next iteration.  `outpath` is the output
folder with its trailing separator. -/
def processOne (outpath : String) (st : FileSys × List String)
    (key : String) (m : MonsterRecord) : Except PyErr (FileSys × List String) :=
  match subdirOf key with
  | .error e =>
    if driverCatches e then .ok (st.1, st.2 ++ [driverMsg e key])
    else .error e
  | .ok _ =>
  match m.title2 with
  | none =>
    if driverCatches (.keyError "title2") then
      .ok (st.1, st.2 ++ [driverMsg (.keyError "title2") key])
    else .error (.keyError "title2")
  | some t =>
    let fname :=
      if isNPCKey key then outpath ++ "NPC " ++ sanitizeTitle t ++ ".md"
      else outpath ++ sanitizeTitle t ++ ".md"
    let m2 := if isNPCKey key then { m with title2 := some ("NPC " ++ t) } else m
    let r := write_monster m2 fname key st.1
    match r.2.2 with
    | none => .ok (r.1, st.2 ++ r.2.1)
    | some e =>
      if driverCatches e then .ok (r.1, st.2 ++ r.2.1 ++ [driverMsg e key])
      else .error e

/-- The batch loop over all records (lines 565–581). -/
def processAll (outpath : String) : List (String × MonsterRecord) →
    FileSys × List String → Except PyErr (FileSys × List String)
  | [], st => .ok st
  | (k, m) :: rest, st =>
    match processOne outpath st k m with
    | .error e => .error e
    | .ok st2 => processAll outpath rest st2

/-- Did the computation finish without an exception? -/
def exOk {α : Type} : Except PyErr α → Bool
  | .ok _ => true
  | .error _ => false

/-! ## Concrete records used to settle individual claims -/

/-- A record with every field of the spec's §3 required set — title,
challenge rating, experience value, alignment, size, type, initiative,
armor class, hit points, saving throws, ability scores, base attack bonus,
combat maneuver bonus and defense, movement speeds — and also `sources`,
but no `skills` field. -/
def recNoSkills : MonsterRecord := {
  title2 := some "NoSkills", sources := some [⟨"Bestiary 2", 33⟩],
  CR := some "1", XP := some "400", alignment := some "N", size := some "Medium",
  type := some "outsider", initiative := some ⟨.inl 3, none⟩,
  AC := some ⟨14, 12, 10, none⟩, HP := some [("HP", "13"), ("long", "3d8")],
  saves := some ⟨1, 2, 3, none⟩, speeds := some [("base", .num 30)],
  ability_scores := some ⟨"10", "11", "12", "13", "14", "15"⟩,
  BAB := some "+2", CMB := some "+3", CMD := some "14" }

/-- The same record with `skills` present but no `sources` field. -/
def recNoSources : MonsterRecord :=
  { recNoSkills with
    title2 := some "NoSources", sources := none,
    skills := some ⟨[("Perception", some 5)], none⟩ }

/-- The same record with both `skills` and `sources` present: every field
the formatter unconditionally reads. -/
def recMinimal : MonsterRecord :=
  { recNoSkills with
    title2 := some "Minimal",
    skills := some ⟨[("Perception", some 5)], none⟩ }

/-- A record exercising every optional block at once. -/
def recFull : MonsterRecord := {
  title2 := some "Testling",
  sources := some [⟨"Bestiary", 5⟩, ⟨"Adventure Path #7", 12⟩],
  CR := some "1", XP := some "400",
  race := some "human", classes := some ["fighter 2"],
  alignment := some "N", size := some "Medium", type := some "outsider",
  subtypes := some ["fire", "native"],
  initiative := some ⟨.inr [2, 4], some "Dex"⟩,
  skills := some ⟨[("Perception", some 5), ("Stealth", none)],
    some [("Stealth", .flat 4), ("_other", .raw "+4 on ice"), ("Swim", .nested [("in water", 8)])]⟩,
  senses := some [("darkvision", .vInt 60), ("low-light vision", .vStr "x")],
  auras := some ["fear"],
  AC := some ⟨14, 12, 10, some [("Dex", .num 2), ("natural", .num 2), ("other", .strs ["shield spell"])]⟩,
  HP := some [("HP", "13"), ("regeneration_special", "5 (acid)"), ("long", "3d8")],
  saves := some ⟨1, 2, 3, some "+2 vs fear"⟩,
  immunities := some ["fire"], resistances := some [("cold", 10)],
  DR := some [⟨5, "magic"⟩], defensive_abilities := some ["ferocity"],
  SR := some "12", weaknesses := some ["vulnerability to cold"],
  speeds := some [("base", .num 30), ("fly", .num 60), ("fly_maneuverability", .txt "good"),
    ("swim", .num 20), ("base_other", .txt "(20 ft. in armor)")],
  attacks := some ⟨some [[⟨"bite +5 (1d6+2)"⟩]], some [[⟨"bow +4 (1d8)"⟩]], some ["rend"]⟩,
  space := some "5", reach := some "5", reach_other := some "10 with bite",
  tactics := some [("During Combat", "The testling fights.")],
  ability_scores := some ⟨"10", "11", "12", "13", "14", "15"⟩,
  BAB := some "+2", CMB := some "+3", CMB_other := some "+5 grapple",
  CMD := some "14", CMD_other := some "16 vs trip",
  feats := some ["Dodge"], languages := some ["Common"],
  special_qualities := some ["amphibious"],
  gear := some [("combat", ["potion of cure light wounds"])],
  ecology := some ⟨some "temperate forests", some "solitary", some ["standard"], some "standard"⟩,
  special_abilities := some [("Rend (Ex)", "Deals extra damage.")],
  spells := some ⟨[⟨"prepared", 3, some [("0", 4), ("1", 3)]⟩, ⟨"known", 2, none⟩],
    [⟨"wizard", 0, "detect magic", none, none⟩, ⟨"wizard", 1, "magic missile", some 2, some 12⟩,
     ⟨"cleric", 0, "light", none, none⟩]⟩,
  psychic_magic := some ⟨[⟨5, 7⟩], [⟨"mind thrust", some 2, some 14⟩, ⟨"detect thoughts", none, none⟩], 10⟩,
  spell_like_abilities := some ⟨[⟨"default", 4, some 6⟩, ⟨"domain", 4, none⟩],
    [⟨"default", "burning hands", "3/day", some 13⟩, ⟨"domain", "bless", "1/day", none⟩,
     ⟨"default", "flare", "3/day", none⟩]⟩,
  desc_short := some "A small test creature.", desc_long := some "Long text here." }

/-- The record `recFull` with the `CR` field removed: a record missing one mandatory
field, for the batch-driver fault-isolation claim. -/
def recNoCR : MonsterRecord := { recFull with CR := none }

/-- The record `recFull` with every spell entry's `source` field rewritten to a name
that matches no spell source. -/
def recFullSwapped : MonsterRecord :=
  { recFull with
    spells := some ⟨[⟨"prepared", 3, some [("0", 4), ("1", 3)]⟩, ⟨"known", 2, none⟩],
      [⟨"swapped", 0, "detect magic", none, none⟩,
       ⟨"swapped", 1, "magic missile", some 2, some 12⟩,
       ⟨"swapped", 0, "light", none, none⟩]⟩ }

/-! ## Helper lemmas -/

theorem decimalAux_length_pos (fuel n : Nat) (h : 0 < fuel) :
    0 < (decimalAux fuel n).length := by
  match fuel with
  | 0 => omega
  | f + 1 =>
    rw [decimalAux]
    split
    · simp
    · simp

theorem decimalStr_two_le (n : Nat) (h : 10 ≤ n) : 2 ≤ (decimalStr n).data.length := by
  show 2 ≤ (decimalAux (n + 1) n).length
  rw [decimalAux, if_neg (by omega)]
  have h1 := decimalAux_length_pos n (n / 10) (by omega)
  simp only [List.length_append, List.length_cons, List.length_nil]
  omega

theorem decimalStr_ne_zero (n : Nat) (h : n ≠ 0) : decimalStr n ≠ "0" := by
  rcases Nat.lt_or_ge n 10 with h10 | h10
  · interval_cases n
    · exact absurd rfl h
    all_goals decide
  · intro he
    have h2 := decimalStr_two_le n h10
    rw [he] at h2
    exact absurd h2 (by decide)

theorem decimalStr_ge_four_ne (n : Nat) (h : 4 ≤ n) :
    decimalStr n ≠ "0" ∧ decimalStr n ≠ "1" ∧ decimalStr n ≠ "2" ∧ decimalStr n ≠ "3" := by
  rcases Nat.lt_or_ge n 10 with h10 | h10
  · interval_cases n <;> exact ⟨by decide, by decide, by decide, by decide⟩
  · have h2 := decimalStr_two_le n h10
    refine ⟨?_, ?_, ?_, ?_⟩ <;> intro he <;> rw [he] at h2 <;> exact absurd h2 (by decide)

/-! ## The claims -/

/-- Claim C1.  The spec says a source name beginning with the 8-character
prefix `"Bestiary"` gets the `"Pathfinder RPG "` prefix, so `"Bestiary"`
itself should render as `"Pathfinder RPG Bestiary"`.  The code compares
`source[8:]` with `"Bestiary"` — a slip for `source[:8]` — so the plain
name `"Bestiary"` is left unprefixed (and what does match is any 16-character
name whose second half is `"Bestiary"`); the `#` replacement half of the
claim does hold. -/
theorem c1_bestiary_slice_slip :
    sourceSection { recNoSkills with sources := some [⟨"Bestiary", 5⟩] }
        = .ok ["source:  " ++ wq "Bestiary"]
    ∧ sourceDisplay "Bestiary" = "Bestiary"
    ∧ sourceDisplay "Bestiary" ≠ "Pathfinder RPG Bestiary"
    ∧ sourceDisplay "Monster Bestiary" = "Pathfinder RPG Monster Bestiary"
    ∧ sourceDisplay "Adventure Path #13" = "Adventure Path No. 13" := by
  refine ⟨rfl, rfl, by decide, rfl, rfl⟩

/-- Claim C4.  For every record with a senses table the emitted line lists
the bare sense names only: the numeric branch tests
`isinstance(type(value), int)`, which is false for every value because a
type object is never an `int` instance. -/
theorem c4_senses_always_bare (m : MonsterRecord) (l : List (String × PyVal))
    (h : m.senses = some l) :
    sensesSection m = ["senses: " ++ wq (joinComma (l.map Prod.fst))]
    ∧ ∀ v : PyVal, isinstanceInt (PyObj.ofType (pyTypeObjOf v)) = false := by
  constructor
  · have hfun : (fun p : String × PyVal => senseItem p.1 p.2) = Prod.fst :=
      funext fun p => rfl
    simp only [sensesSection, h, hfun]
  · intro v
    cases v <;> rfl

/-- Witness for C4 at a concrete record with a numeric-valued sense. -/
theorem c4_senses_always_bare_witness :
    sensesSection { recNoSkills with senses := some [("darkvision", .vInt 60), ("scent", .vStr "x")] }
      = ["senses: " ++ wq "darkvision, scent"] :=
  (c4_senses_always_bare _ [("darkvision", .vInt 60), ("scent", .vStr "x")] rfl).1

/-- Claim C10.  Whenever the HP section succeeds, the `HP_extra:` line is
emitted, and when the HP table has no keys other than `HP` and `long` it is
emitted with an empty quoted value rather than omitted. -/
theorem c10_hp_extra_always_emitted (m : MonsterRecord) (hp : List (String × String))
    (hpv lng : String) (h : m.HP = some hp)
    (h1 : List.lookup "HP" hp = some hpv) (h2 : List.lookup "long" hp = some lng) :
    hpSection m = .ok ["HP: " ++ hpv, "HP_extra: " ++ wq (joinSep "; " (hpSpecial hp)), "HD: " ++ lng]
    ∧ (hp.all (fun p => p.1 == "HP" || p.1 == "long") = true →
        hpSection m = .ok ["HP: " ++ hpv, "HP_extra: " ++ "\"\"", "HD: " ++ lng]) := by
  have hmain : hpSection m
      = .ok ["HP: " ++ hpv, "HP_extra: " ++ wq (joinSep "; " (hpSpecial hp)), "HD: " ++ lng] := by
    simp only [hpSection, h, h1, h2]
  refine ⟨hmain, fun hall => ?_⟩
  rw [hmain]
  have hnil : hp.filter (fun p => p.1 != "HP" && p.1 != "long") = [] := by
    rw [List.filter_eq_nil_iff]
    intro p hmem
    have hp2 := List.all_eq_true.mp hall p hmem
    simp only [Bool.or_eq_true, beq_iff_eq] at hp2
    simp only [Bool.and_eq_true, bne_iff_ne, ne_eq, Decidable.not_not]
    rcases hp2 with h' | h'
    · exact fun hc => hc.1 h'
    · exact fun hc => hc.2 h'
  have hsp : hpSpecial hp = [] := by
    unfold hpSpecial
    rw [hnil]
    rfl
  rw [hsp]
  rfl

/-- Witness for C10 at a concrete record whose HP table has only the `HP`
and `long` keys. -/
theorem c10_hp_extra_always_emitted_witness :
    hpSection recMinimal = .ok ["HP: " ++ "13", "HP_extra: " ++ "\"\"", "HD: " ++ "3d8"] :=
  (c10_hp_extra_always_emitted recMinimal [("HP", "13"), ("long", "3d8")] "13" "3d8"
    rfl rfl rfl).2 rfl

/-- Claim C7.  The per-level header uses the ordinal suffixes `st`/`nd`/`rd`
for levels 1/2/3, `th` for every level from 4 up, and none for level 0; a
slot table containing the level's key annotates level 0 with ` (at-will)`
and any other level with ` (<slots>/day)`.  In particular level 0 with a
`"0"` slot key renders `0 (at-will)` and level 1 with 3 slots renders
`1st (3/day)`. -/
theorem c7_spell_level_headers (n : Nat) (src : SpellSource) :
    (ordinalSuffixFor (decimalStr n) =
      (if n = 1 then "st" else if n = 2 then "nd" else if n = 3 then "rd"
       else if n = 0 then "" else "th"))
    ∧ (levelHeader src (decimalStr n) =
        match src.slots with
        | some slots =>
          match List.lookup (decimalStr n) slots with
          | some c =>
            if n = 0 then decimalStr n ++ ordinalSuffixFor (decimalStr n) ++ " (at-will)"
            else decimalStr n ++ ordinalSuffixFor (decimalStr n) ++ " (" ++ pyStrInt c ++ "/day)"
          | none => decimalStr n ++ ordinalSuffixFor (decimalStr n)
        | none => decimalStr n ++ ordinalSuffixFor (decimalStr n))
    ∧ levelHeader ⟨"prepared", 3, some [("0", 4)]⟩ (decimalStr 0) = "0 (at-will)"
    ∧ levelHeader ⟨"known", 3, some [("1", 3)]⟩ (decimalStr 1) = "1st (3/day)" := by
  refine ⟨?_, ?_, by decide, by decide⟩
  · by_cases h0 : n = 0
    · subst h0; decide
    by_cases h1 : n = 1
    · subst h1; decide
    by_cases h2 : n = 2
    · subst h2; decide
    by_cases h3 : n = 3
    · subst h3; decide
    obtain ⟨z, o, t, r⟩ := decimalStr_ge_four_ne n (by omega)
    simp only [ordinalSuffixFor, if_neg o, if_neg t, if_neg r, if_neg z,
      if_neg h0, if_neg h1, if_neg h2, if_neg h3]
  · cases hs : src.slots with
    | none => simp only [levelHeader, hs]
    | some slots =>
      cases hlk : List.lookup (decimalStr n) slots with
      | none => simp only [levelHeader, hs, hlk]
      | some c =>
        by_cases h0 : n = 0
        · subst h0
          simp only [levelHeader, hs, hlk, if_pos (by decide : decimalStr 0 = "0"), if_true]
        · have hz := decimalStr_ne_zero n h0
          simp only [levelHeader, hs, hlk, if_neg hz, if_neg h0]

/-- The speed loop in filter/map form: it skips exactly the keys `base`,
`fly` and `fly_maneuverability` — not `fly_other`. -/
theorem speedLoop_flatten (spd : List (String × SpeedVal)) :
    List.flatten (spd.map speedLoopItem) =
      (spd.filter (fun p =>
          !(p.1 == "base") && !(p.1 == "fly") && !(p.1 == "fly_maneuverability"))).map
        (fun p => if p.1 = "base_other" then " " ++ p.2.pyStr
                  else p.1 ++ " " ++ p.2.pyStr ++ " ft.") := by
  induction spd with
  | nil => rfl
  | cons p rest ih =>
    simp only [List.map_cons, List.flatten_cons, List.filter_cons]
    by_cases hb : p.1 = "base"
    · simp [speedLoopItem, hb, ih]
    by_cases hf : p.1 = "fly"
    · simp [speedLoopItem, hb, hf, ih]
    by_cases hm : p.1 = "fly_maneuverability"
    · simp [speedLoopItem, hb, hf, hm, ih]
    by_cases ho : p.1 = "base_other"
    · simp [speedLoopItem, hb, hf, hm, ho, ih]
    · simp [speedLoopItem, hb, hf, hm, ho, ih]

/-- Counterexample to claim C3 as stated: in a speeds table with a `fly`
key and a `fly_other` key, the `fly_other` value is consumed by the fly
rendering and then rendered again by the loop as `fly_other <value> ft.`,
because the loop skips only `base`, `fly` and `fly_maneuverability`. -/
theorem c3_fly_other_rendered_twice :
    speedSection { recNoSkills with speeds := some [("fly", .num 60), ("fly_other", .txt "average")] }
      = .ok ["speed: " ++ wq "fly 60 ft. (average), fly_other average ft."]
    ∧ "fly 60 ft. (average), fly_other average ft." ≠ "fly 60 ft. (average)" :=
  ⟨rfl, by decide⟩

/-- Claim C3 as amended: base speed first, then the fly entry, then every
speeds-table key except `base`, `fly` and `fly_maneuverability` — so a
consumed `fly_other` key is rendered a second time — with `base_other`
rendered as its bare value without a key label. -/
theorem c3_speed_line_order (m : MonsterRecord) (spd : List (String × SpeedVal))
    (fl : List String) (h : m.speeds = some spd) (hfl : flyPart spd = .ok fl) :
    speedSection m = .ok ["speed: " ++ wq (joinComma (
      (match List.lookup "base" spd with
       | some bv => [bv.pyStr ++ " ft."]
       | none => [])
      ++ fl
      ++ (spd.filter (fun p =>
            !(p.1 == "base") && !(p.1 == "fly") && !(p.1 == "fly_maneuverability"))).map
          (fun p => if p.1 = "base_other" then " " ++ p.2.pyStr
                    else p.1 ++ " " ++ p.2.pyStr ++ " ft.")))] := by
  simp only [speedSection, h, hfl, speedLoop_flatten]

/-- Witness for the amended C3 at the full test record. -/
theorem c3_speed_line_order_witness :
    speedSection recFull
      = .ok ["speed: " ++ wq "30 ft., fly 60 ft. (good), swim 20 ft.,  (20 ft. in armor)"] := by
  have h := c3_speed_line_order recFull
    [("base", .num 30), ("fly", .num 60), ("fly_maneuverability", .txt "good"),
     ("swim", .num 20), ("base_other", .txt "(20 ft. in armor)")]
    ["fly 60 ft. (good)"] rfl rfl
  exact h

/-- A printable ASCII code point other than the backslash passes the
`unicode_escape` codec unchanged. -/
theorem escapeChar_clean (c : Char) (h1 : 32 ≤ c.toNat) (h2 : c.toNat ≤ 126)
    (h3 : c ≠ Char.ofNat 92) : escapeChar c = String.singleton c := by
  have h9 : c ≠ Char.ofNat 9 := by
    intro he; rw [he] at h1; exact absurd h1 (by decide)
  have h10 : c ≠ Char.ofNat 10 := by
    intro he; rw [he] at h1; exact absurd h1 (by decide)
  have h13 : c ≠ Char.ofNat 13 := by
    intro he; rw [he] at h1; exact absurd h1 (by decide)
  unfold escapeChar
  rw [if_neg h3, if_neg h9, if_neg h10, if_neg h13,
    if_neg (by omega : ¬(c.toNat < 32 ∨ c.toNat = 127)),
    if_pos (by omega : c.toNat < 127)]

/-- A string of printable ASCII without backslash passes the codec
unchanged (list form). -/
theorem strConcat_escape_clean (l : List Char)
    (hs : ∀ c ∈ l, 32 ≤ c.toNat ∧ c.toNat ≤ 126 ∧ c ≠ Char.ofNat 92) :
    strConcat (l.map escapeChar) = ⟨l⟩ := by
  induction l with
  | nil => rfl
  | cons c cs ih =>
    have hc := hs c (List.mem_cons_self c cs)
    have ihh := ih (fun d hd => hs d (List.mem_cons_of_mem c hd))
    show escapeChar c ++ strConcat (cs.map escapeChar) = ⟨c :: cs⟩
    rw [escapeChar_clean c hc.1 hc.2.1 hc.2.2, ihh]
    rfl

/-- A string of printable ASCII without backslash passes the codec
unchanged. -/
theorem pyUnicodeEscape_clean (s : String)
    (hs : ∀ c ∈ s.data, 32 ≤ c.toNat ∧ c.toNat ≤ 126 ∧ c ≠ Char.ofNat 92) :
    pyUnicodeEscape s = s := by
  obtain ⟨l⟩ := s
  exact strConcat_escape_clean l hs

/-- Every non-printable or non-ASCII code point is turned into a
backslash escape: its image starts with a backslash. -/
theorem escapeChar_escaped_head (d : Char) (h : d.toNat < 32 ∨ 127 ≤ d.toNat) :
    (escapeChar d).data.head? = some (Char.ofNat 92) := by
  unfold escapeChar
  by_cases h92 : d = Char.ofNat 92
  · rw [if_pos h92]; rfl
  rw [if_neg h92]
  by_cases h9 : d = Char.ofNat 9
  · rw [if_pos h9]; rfl
  rw [if_neg h9]
  by_cases h10 : d = Char.ofNat 10
  · rw [if_pos h10]; rfl
  rw [if_neg h10]
  by_cases h13 : d = Char.ofNat 13
  · rw [if_pos h13]; rfl
  rw [if_neg h13]
  by_cases hx : d.toNat < 32 ∨ d.toNat = 127
  · rw [if_pos hx]; rfl
  rw [if_neg hx, if_neg (by omega : ¬ d.toNat < 127)]
  by_cases h256 : d.toNat < 256
  · rw [if_pos h256]; rfl
  rw [if_neg h256]
  by_cases h65536 : d.toNat < 65536
  · rw [if_pos h65536]; rfl
  · rw [if_neg h65536]; rfl

/-- Counterexample to claim C8 as stated: the backslash is a printable
ASCII character (code 92, between 32 and 126) yet the escaping step does
not leave it unaltered — it doubles it. -/
theorem c8_backslash_not_preserved :
    descLine (String.singleton (Char.ofNat 92)) = "    desc: " ++ wq "\\\\"
    ∧ pyUnicodeEscape (String.singleton (Char.ofNat 92)) ≠ String.singleton (Char.ofNat 92)
    ∧ 32 ≤ (Char.ofNat 92).toNat ∧ (Char.ofNat 92).toNat ≤ 126 :=
  ⟨rfl, by decide, by decide, by decide⟩

/-- Claim C8 as amended: the emitted desc value is the input with every
non-printable and non-ASCII character replaced by a backslash escape,
every printable ASCII character except the backslash left unaltered, the
backslash itself doubled, and the whole wrapped in literal double
quotes. -/
theorem c8_escaping_characterized (s : String)
    (hs : ∀ c ∈ s.data, 32 ≤ c.toNat ∧ c.toNat ≤ 126 ∧ c ≠ Char.ofNat 92) :
    descLine s = "    desc: " ++ wq s
    ∧ pyUnicodeEscape s = s
    ∧ escapeChar (Char.ofNat 92) = "\\\\"
    ∧ (∀ d : Char, d.toNat < 32 ∨ 127 ≤ d.toNat →
        (escapeChar d).data.head? = some (Char.ofNat 92)) := by
  have hp := pyUnicodeEscape_clean s hs
  refine ⟨?_, hp, rfl, escapeChar_escaped_head⟩
  unfold descLine
  rw [hp]

/-- Witness for the amended C8 at a concrete printable string. -/
theorem c8_escaping_characterized_witness :
    descLine "Grab (Ex)" = "    desc: " ++ wq "Grab (Ex)" :=
  (c8_escaping_characterized "Grab (Ex)" (by decide)).1

/-- The per-level spell grouping reads only the level, count, DC and name
of each entry, never its `source` field. -/
theorem groupSpells_map_source (f : SpellEntry → String) (entries : List SpellEntry) :
    groupSpells (entries.map (fun e => { e with source := f e })) = groupSpells entries := by
  unfold groupSpells
  rw [List.foldl_map]
  rfl

/-- The spell-like-ability fold with its `continue` equals the fold over
the entries whose `source` field names the processed source. -/
theorem groupSLA_eq_filter (srcName : String) (entries : List SLAEntry) :
    groupSLA srcName entries
      = (entries.filter (fun e => e.source == srcName)).foldl
          (fun acc e => addSpell acc e.freq (e.name ++ slaDC e)) [] := by
  unfold groupSLA
  generalize ([] : List (String × String)) = acc
  induction entries generalizing acc with
  | nil => rfl
  | cons e rest ih =>
    simp only [List.foldl_cons, List.filter_cons]
    by_cases hsrc : e.source = srcName
    · rw [if_neg (fun hne => hne hsrc), if_pos (by simp [hsrc] : (e.source == srcName) = true),
        List.foldl_cons]
      exact ih _
    · rw [if_pos hsrc, if_neg (by simp [hsrc] : ¬(e.source == srcName) = true)]
      exact ih acc

/-- Claim C9.  With several spell sources, every source's block repeats the
complete grouped spell list — changing the `source` field of every spell
entry changes nothing — while a spell-like-ability block lists under each
source exactly the entries whose `source` field matches that source's
name. -/
theorem c9_spells_unfiltered_sla_filtered (m : MonsterRecord) (sp : SpellsInfo) (sl : SLAInfo)
    (hsp : m.spells = some sp) (hsl : m.spell_like_abilities = some sl) :
    (∀ f : SpellEntry → String,
      spellsSection { m with spells := some ⟨sp.sources, sp.entries.map (fun e => { e with source := f e })⟩ }
        = spellsSection m)
    ∧ (∀ s : SpellSource, ∀ entries1 entries2 : List SpellEntry,
        groupSpells entries1 = groupSpells entries2 →
        spellsForSource s entries1 = spellsForSource s entries2)
    ∧ (∀ s : SLASource, groupSLA s.name sl.entries
        = (sl.entries.filter (fun e => e.source == s.name)).foldl
            (fun acc e => addSpell acc e.freq (e.name ++ slaDC e)) [])
    ∧ slaSection m
        = "spell-like_abilities:" :: List.flatten (sl.sources.map (fun s => slaForSource s sl.entries)) := by
  refine ⟨?_, ?_, fun s => groupSLA_eq_filter s.name sl.entries, by simp only [slaSection, hsl]⟩
  · intro f
    simp only [spellsSection, hsp, spellsForSource, groupSpells_map_source]
  · intro s entries1 entries2 hg
    unfold spellsForSource
    rw [hg]

/-- Witness for C9: rewriting every spell entry's source leaves the spells
block of the full test record unchanged, and the default spell-like
source's table groups exactly its own two entries. -/
theorem c9_spells_unfiltered_sla_filtered_witness :
    spellsSection recFullSwapped = spellsSection recFull
    ∧ groupSLA "default"
        [⟨"default", "burning hands", "3/day", some 13⟩, ⟨"domain", "bless", "1/day", none⟩,
         ⟨"default", "flare", "3/day", none⟩]
      = ([(⟨"default", "burning hands", "3/day", some 13⟩ : SLAEntry),
          ⟨"default", "flare", "3/day", none⟩]).foldl
          (fun acc e => addSpell acc e.freq (e.name ++ slaDC e)) [] := by
  have h := c9_spells_unfiltered_sla_filtered recFull
    ⟨[⟨"prepared", 3, some [("0", 4), ("1", 3)]⟩, ⟨"known", 2, none⟩],
      [⟨"wizard", 0, "detect magic", none, none⟩, ⟨"wizard", 1, "magic missile", some 2, some 12⟩,
       ⟨"cleric", 0, "light", none, none⟩]⟩
    ⟨[⟨"default", 4, some 6⟩, ⟨"domain", 4, none⟩],
      [⟨"default", "burning hands", "3/day", some 13⟩, ⟨"domain", "bless", "1/day", none⟩,
       ⟨"default", "flare", "3/day", none⟩]⟩ rfl rfl
  exact ⟨h.1 (fun _ => "swapped"), h.2.2.1 ⟨"default", 4, some 6⟩⟩

theorem isPre_self_append (l x : List Char) : isPre l (l ++ x) = true := by
  induction l with
  | nil => rfl
  | cons c cs ih => simp [isPre, ih]

theorem containsSub_here (pat x : List Char) : containsSub pat (pat ++ x) = true := by
  cases pat with
  | nil => cases x <;> simp [containsSub, isPre]
  | cons p ps =>
    show containsSub (p :: ps) (p :: (ps ++ x)) = true
    simp [containsSub, isPre, isPre_self_append]

theorem containsSub_append_left (pat a l : List Char) (h : containsSub pat l = true) :
    containsSub pat (a ++ l) = true := by
  induction a with
  | nil => exact h
  | cons c a ih =>
    show containsSub pat (c :: (a ++ l)) = true
    cases pat with
    | nil => rfl
    | cons p ps => simp [containsSub, ih]

/-- The string `a ++ pat ++ b` contains `pat`. -/
theorem pyInStr_mid (a pat b : String) : pyInStr pat (a ++ pat ++ b) = true := by
  obtain ⟨la⟩ := a
  obtain ⟨lp⟩ := pat
  obtain ⟨lb⟩ := b
  show containsSub lp ((la ++ lp) ++ lb) = true
  rw [List.append_assoc]
  exact containsSub_append_left lp la (lp ++ lb) (containsSub_here lp lb)

/-- The string `a ++ pat` contains `pat`. -/
theorem pyInStr_end (a pat : String) : pyInStr pat (a ++ pat) = true := by
  obtain ⟨la⟩ := a
  obtain ⟨lp⟩ := pat
  show containsSub lp (la ++ lp) = true
  have h := containsSub_here lp []
  rw [List.append_nil] at h
  exact containsSub_append_left lp la lp h

/-- String concatenation is associative. -/
theorem strAppend_assoc (a b c : String) : a ++ b ++ c = a ++ (b ++ c) := by
  obtain ⟨x⟩ := a
  obtain ⟨y⟩ := b
  obtain ⟨z⟩ := c
  show (⟨(x ++ y) ++ z⟩ : String) = ⟨x ++ (y ++ z)⟩
  rw [List.append_assoc]

/-- The driver's error line contains both `str(e)` and the record key. -/
theorem driverMsg_names_both (e : PyErr) (key : String) :
    pyInStr (pyErrStr e) (driverMsg e key) = true
    ∧ pyInStr key (driverMsg e key) = true := by
  constructor
  · unfold driverMsg
    rw [strAppend_assoc ("ERROR:  " ++ pyErrStr e) " with " key]
    exact pyInStr_mid "ERROR:  " (pyErrStr e) (" with " ++ key)
  · exact pyInStr_end ("ERROR:  " ++ pyErrStr e ++ " with ") key

/-- Claim C5.  When the destination file already exists, the write is
refused: the file table is unchanged (so the existing content is intact and
nothing new is written), the only output is a diagnostic line naming the
file and the record's source key, the exception is consumed (`none`), and
the batch loop goes on to process the remaining records from the same
state.  The batch conjunct assumes a key with at least four `/`-segments
(`subdirOf key` succeeds), as every key of the corpus — a URL — has: for a
shorter key the driver dies of the line-571 `IndexError` before reaching
the write. -/
theorem c5_existing_file_refused (m : MonsterRecord) (fn url : String) (fs : FileSys)
    (h : fileExists fs fn = true) :
    write_monster m fn url fs
      = (fs, ["ERROR: file " ++ fn ++ " already exists while processing key " ++ url], none)
    ∧ pyInStr url ("ERROR: file " ++ fn ++ " already exists while processing key " ++ url) = true
    ∧ ∀ (outpath key t sd : String) (rest : List (String × MonsterRecord)) (logs : List String),
        subdirOf key = .ok sd →
        m.title2 = some t → isNPCKey key = false →
        fileExists fs (outpath ++ sanitizeTitle t ++ ".md") = true →
        processAll outpath ((key, m) :: rest) (fs, logs)
          = processAll outpath rest
              (fs, logs ++ ["ERROR: file " ++ (outpath ++ sanitizeTitle t ++ ".md")
                    ++ " already exists while processing key " ++ key]) := by
  refine ⟨by simp only [write_monster, h, if_true], pyInStr_end _ url, ?_⟩
  intro outpath key t sd rest logs hsub ht hnpc hex
  simp only [processAll, processOne, hsub, ht, hnpc, Bool.false_eq_true, if_false,
    write_monster, hex, if_true]

/-- Witness for C5: a batch whose first record's destination exists, keyed
by a corpus-shaped URL. -/
theorem c5_existing_file_refused_witness :
    write_monster recMinimal "bestiary/Minimal.md"
        "https://aonprd.com/MonsterDisplay.aspx?ItemName=Minimal"
        [("bestiary/Minimal.md", some ["old"])]
      = ([("bestiary/Minimal.md", some ["old"])],
         ["ERROR: file " ++ "bestiary/Minimal.md"
            ++ " already exists while processing key "
            ++ "https://aonprd.com/MonsterDisplay.aspx?ItemName=Minimal"], none)
    ∧ processAll "bestiary/"
        [("https://aonprd.com/MonsterDisplay.aspx?ItemName=Minimal", recMinimal)]
        ([("bestiary/Minimal.md", some ["old"])], [])
      = processAll "bestiary/" []
          ([("bestiary/Minimal.md", some ["old"])],
           [] ++ ["ERROR: file " ++ ("bestiary/" ++ sanitizeTitle "Minimal" ++ ".md")
                ++ " already exists while processing key "
                ++ "https://aonprd.com/MonsterDisplay.aspx?ItemName=Minimal"]) := by
  have h := c5_existing_file_refused recMinimal "bestiary/Minimal.md"
    "https://aonprd.com/MonsterDisplay.aspx?ItemName=Minimal"
    [("bestiary/Minimal.md", some ["old"])] rfl
  exact ⟨h.1, h.2.2 "bestiary/" "https://aonprd.com/MonsterDisplay.aspx?ItemName=Minimal"
    "Minimal" "Monster" [] [] rfl rfl rfl rfl⟩

/-- Claim C6.  A record whose formatting aborts with a missing-field
`KeyError` is caught by the driver: the log gains one line naming the
missing field (through `str(e)`) and the record's key, the batch continues
with the remaining records, and the only file-table change is the empty
file the refused write left behind.  As in C5, the key is assumed to have
at least four `/`-segments (`subdirOf key` succeeds), as every corpus key
— a URL — does; a shorter key would end the whole run with the uncaught
line-571 `IndexError` instead. -/
theorem c6_missing_field_isolated (outpath key t sd fld : String) (m : MonsterRecord)
    (rest : List (String × MonsterRecord)) (fs : FileSys) (logs : List String)
    (hsub : subdirOf key = .ok sd)
    (ht : m.title2 = some t) (hnpc : isNPCKey key = false)
    (hnew : fileExists fs (outpath ++ sanitizeTitle t ++ ".md") = false)
    (hw : write_monster_to_file m (some key) = .error (.keyError fld)) :
    processOne outpath (fs, logs) key m
      = .ok ((outpath ++ sanitizeTitle t ++ ".md", none) :: fs,
          logs ++ [driverMsg (.keyError fld) key])
    ∧ processAll outpath ((key, m) :: rest) (fs, logs)
      = processAll outpath rest
          ((outpath ++ sanitizeTitle t ++ ".md", none) :: fs,
           logs ++ [driverMsg (.keyError fld) key])
    ∧ pyInStr fld (driverMsg (.keyError fld) key) = true
    ∧ pyInStr key (driverMsg (.keyError fld) key) = true := by
  have hone : processOne outpath (fs, logs) key m
      = .ok ((outpath ++ sanitizeTitle t ++ ".md", none) :: fs,
          logs ++ [driverMsg (.keyError fld) key]) := by
    simp only [processOne, hsub, ht, hnpc, Bool.false_eq_true, if_false,
      write_monster, hnew, hw, driverCatches, List.append_nil, if_true]
  refine ⟨hone, by simp only [processAll, hone], ?_, (driverMsg_names_both _ key).2⟩
  have h := driverMsg_names_both (.keyError fld) key
  unfold driverMsg pyErrStr at h ⊢
  have h2 := pyInStr_mid ("ERROR:  " ++ "\x27") fld ("\x27" ++ (" with " ++ key))
  rw [show ("ERROR:  " ++ "\x27") ++ fld ++ ("\x27" ++ (" with " ++ key))
      = "ERROR:  " ++ ("\x27" ++ fld ++ "\x27") ++ " with " ++ key by
    simp only [strAppend_assoc]] at h2
  exact h2

/-- Witness for C6: a batch whose only record misses the `CR` field. -/
theorem c6_missing_field_isolated_witness :
    processOne "bestiary/" ([], []) "https://aonprd.com/MonsterDisplay.aspx?ItemName=Testling" recNoCR
      = .ok ([("bestiary/Testling.md", none)],
          [driverMsg (.keyError "CR") "https://aonprd.com/MonsterDisplay.aspx?ItemName=Testling"]) :=
  (c6_missing_field_isolated "bestiary/" "https://aonprd.com/MonsterDisplay.aspx?ItemName=Testling"
    "Testling" "Monster" "CR" recNoCR [] [] [] rfl rfl rfl rfl rfl).1

theorem exbind_ok {α β : Type} (a : α) (f : α → Except PyErr β) :
    (Except.ok a >>= f) = f a := rfl

theorem sourceSection_ok (m : MonsterRecord) (s0 : SourceRef) (srest : List SourceRef)
    (h : m.sources = some (s0 :: srest)) :
    sourceSection m = .ok ["source:  " ++ wq (sourceDisplay s0.name)] := by
  simp only [sourceSection, h]

theorem coreScalars_ok (m : MonsterRecord) (title cr xp al sz ty : String)
    (hcr : m.CR = some cr) (hxp : m.XP = some xp) (hal : m.alignment = some al)
    (hsz : m.size = some sz) (hty : m.type = some ty) :
    ∃ l, coreScalars m title = .ok l := by
  simp only [coreScalars, hcr, hxp, hal, hsz, hty]
  exact ⟨_, rfl⟩

theorem iniSection_ok (m : MonsterRecord) (ini : InitiativeInfo)
    (h : m.initiative = some ini) : ∃ l, iniSection m = .ok l := by
  rcases ini with ⟨b | bs, ab⟩
  · simp only [iniSection, h]
    exact ⟨_, rfl⟩
  · cases ab with
    | none =>
      simp only [iniSection, h]
      exact ⟨_, rfl⟩
    | some a =>
      simp only [iniSection, h]
      exact ⟨_, rfl⟩

theorem perceptionSection_ok (m : MonsterRecord) (sk : SkillsInfo)
    (h : m.skills = some sk)
    (hperc : (match List.lookup "Perception" sk.entries with
              | some none => false
              | _ => true) = true) :
    ∃ l, perceptionSection m = .ok l := by
  cases hlk : List.lookup "Perception" sk.entries with
  | none =>
    simp only [perceptionSection, h, hlk]
    exact ⟨[], rfl⟩
  | some o =>
    cases o with
    | none => rw [hlk] at hperc; simp at hperc
    | some n =>
      simp only [perceptionSection, h, hlk]
      exact ⟨_, rfl⟩

theorem acSection_ok (m : MonsterRecord) (a : ACInfo) (h : m.AC = some a) :
    ∃ l, acSection m = .ok l := by
  simp only [acSection, h]
  exact ⟨_, rfl⟩

theorem hpSection_ok (m : MonsterRecord) (hp : List (String × String)) (hpv lng : String)
    (h : m.HP = some hp) (h1 : List.lookup "HP" hp = some hpv)
    (h2 : List.lookup "long" hp = some lng) : ∃ l, hpSection m = .ok l := by
  simp only [hpSection, h, h1, h2]
  exact ⟨_, rfl⟩

theorem savesSection_ok (m : MonsterRecord) (sv : SavesInfo) (h : m.saves = some sv) :
    ∃ l, savesSection m = .ok l := by
  simp only [savesSection, h]
  exact ⟨_, rfl⟩

theorem speedSection_ok (m : MonsterRecord) (spd : List (String × SpeedVal))
    (h : m.speeds = some spd) (hfly : exOk (flyPart spd) = true) :
    ∃ l, speedSection m = .ok l := by
  cases hfl : flyPart spd with
  | error e => rw [hfl] at hfly; simp [exOk] at hfly
  | ok fl =>
    simp only [speedSection, h, hfl]
    exact ⟨_, rfl⟩

theorem firstGroupLines_ok (tag : String) (o : Option (List (List AttackRef)))
    (h : o ≠ some []) : ∃ l, firstGroupLines tag o = .ok l := by
  match o with
  | none => exact ⟨[], rfl⟩
  | some [] => exact absurd rfl h
  | some (g :: gs) => exact ⟨_, rfl⟩

theorem attacksSection_ok (m : MonsterRecord)
    (hatk : (match m.attacks with
             | none => true
             | some atk => !(atk.melee == some []) && !(atk.ranged == some [])) = true) :
    ∃ l, attacksSection m = .ok l := by
  cases ha : m.attacks with
  | none =>
    simp only [attacksSection, ha]
    exact ⟨[], rfl⟩
  | some atk =>
    rw [ha] at hatk
    simp only [Bool.and_eq_true, Bool.not_eq_true', beq_eq_false_iff_ne, ne_eq] at hatk
    obtain ⟨hm, hr⟩ := hatk
    obtain ⟨ml, hml⟩ := firstGroupLines_ok "melee: " atk.melee hm
    obtain ⟨rl, hrl⟩ := firstGroupLines_ok "ranged: " atk.ranged hr
    simp only [attacksSection, ha, hml, hrl]
    exact ⟨_, rfl⟩

theorem statsSection_ok (m : MonsterRecord) (ab : AbilityScores)
    (h : m.ability_scores = some ab) : ∃ l, statsSection m = .ok l := by
  simp only [statsSection, h]
  exact ⟨_, rfl⟩

theorem babSection_ok (m : MonsterRecord) (bab cmb cmd : String)
    (hbab : m.BAB = some bab) (hcmb : m.CMB = some cmb) (hcmd : m.CMD = some cmd) :
    ∃ l, babSection m = .ok l := by
  simp only [babSection, hbab, hcmb, hcmd]
  exact ⟨_, rfl⟩

theorem seqLines_ok (xs : List (Except PyErr (List String)))
    (h : ∀ x ∈ xs, exOk x = true) : ∃ l, seqLines xs = .ok l := by
  induction xs with
  | nil => exact ⟨[], rfl⟩
  | cons x rest ih =>
    obtain ⟨b, hb⟩ := ih (fun y hy => h y (List.mem_cons_of_mem x hy))
    have hx := h x (List.mem_cons_self x rest)
    cases x with
    | error e => simp [exOk] at hx
    | ok a => exact ⟨a ++ b, by simp only [seqLines, hb]⟩

theorem skillsSection_ok (m : MonsterRecord) (sk : SkillsInfo)
    (h : m.skills = some sk)
    (hrm : (sk.racial_mods.getD []).all (fun p => exOk (racialModLines p.1 p.2)) = true) :
    ∃ l, skillsSection m = .ok l := by
  cases hr : sk.racial_mods with
  | none =>
    simp only [skillsSection, h, hr]
    exact ⟨_, rfl⟩
  | some rms =>
    rw [hr] at hrm
    have hall : ∀ p ∈ rms, exOk (racialModLines p.1 p.2) = true :=
      List.all_eq_true.mp hrm
    obtain ⟨rl, hrl⟩ := seqLines_ok (rms.map (fun p => racialModLines p.1 p.2)) (by
      intro x hx
      obtain ⟨p, hp, rfl⟩ := List.mem_map.mp hx
      exact hall p hp)
    simp only [skillsSection, h, hr, hrl]
    exact ⟨_, rfl⟩

/-- Counterexample to claim C2 as stated: a record carrying every field of
the spec's required set still fails to format when `skills` (or `sources`)
is absent, because both are read unconditionally. -/
theorem c2_skills_sources_also_required :
    (recNoSkills.title2.isSome && recNoSkills.CR.isSome && recNoSkills.XP.isSome
      && recNoSkills.alignment.isSome && recNoSkills.size.isSome && recNoSkills.type.isSome
      && recNoSkills.initiative.isSome && recNoSkills.AC.isSome && recNoSkills.HP.isSome
      && recNoSkills.saves.isSome && recNoSkills.ability_scores.isSome && recNoSkills.BAB.isSome
      && recNoSkills.CMB.isSome && recNoSkills.CMD.isSome && recNoSkills.speeds.isSome) = true
    ∧ recNoSkills.skills = none
    ∧ write_monster_to_file recNoSkills none = .error (.keyError "skills")
    ∧ recNoSources.sources = none
    ∧ write_monster_to_file recNoSources none = .error (.keyError "sources") :=
  ⟨rfl, rfl, rfl, rfl, rfl⟩

/-- Claim C2 as amended: formatting succeeds — regardless of which other
optional fields are absent — whenever the record carries the spec's
required set *plus* the `skills` and `sources` fields (with well-shaped
sub-structures); `skills` and `sources` belong to the required set. -/
theorem c2_required_fields_sufficient (m : MonsterRecord)
    (t cr xp al sz ty : String) (s0 : SourceRef) (srest : List SourceRef)
    (ini : InitiativeInfo) (sk : SkillsInfo) (a : ACInfo)
    (hp : List (String × String)) (hpv lng : String) (sv : SavesInfo)
    (spd : List (String × SpeedVal)) (ab : AbilityScores)
    (bab cmb cmd : String) (url : Option String)
    (ht : m.title2 = some t)
    (hsrc : m.sources = some (s0 :: srest))
    (hcr : m.CR = some cr) (hxp : m.XP = some xp) (hal : m.alignment = some al)
    (hsz : m.size = some sz) (hty : m.type = some ty)
    (hini : m.initiative = some ini)
    (hsk : m.skills = some sk)
    (hperc : (match List.lookup "Perception" sk.entries with
              | some none => false
              | _ => true) = true)
    (hrm : (sk.racial_mods.getD []).all (fun p => exOk (racialModLines p.1 p.2)) = true)
    (hac : m.AC = some a)
    (hhp : m.HP = some hp) (hhpv : List.lookup "HP" hp = some hpv)
    (hlng : List.lookup "long" hp = some lng)
    (hsv : m.saves = some sv)
    (hspd : m.speeds = some spd) (hfly : exOk (flyPart spd) = true)
    (hatk : (match m.attacks with
             | none => true
             | some atk => !(atk.melee == some []) && !(atk.ranged == some [])) = true)
    (hab : m.ability_scores = some ab)
    (hbab : m.BAB = some bab) (hcmb : m.CMB = some cmb) (hcmd : m.CMD = some cmd) :
    exOk (write_monster_to_file m url) = true := by
  have h2 := sourceSection_ok m s0 srest hsrc
  obtain ⟨l3, h3⟩ := coreScalars_ok m t cr xp al sz ty hcr hxp hal hsz hty
  obtain ⟨l4, h4⟩ := iniSection_ok m ini hini
  obtain ⟨l5, h5⟩ := perceptionSection_ok m sk hsk hperc
  obtain ⟨l8, h8⟩ := acSection_ok m a hac
  obtain ⟨l9, h9⟩ := hpSection_ok m hp hpv lng hhp hhpv hlng
  obtain ⟨l10, h10⟩ := savesSection_ok m sv hsv
  obtain ⟨l12, h12⟩ := speedSection_ok m spd hspd hfly
  obtain ⟨l13, h13⟩ := attacksSection_ok m hatk
  obtain ⟨l16, h16⟩ := statsSection_ok m ab hab
  obtain ⟨l17, h17⟩ := babSection_ok m bab cmb cmd hbab hcmb hcmd
  obtain ⟨l19, h19⟩ := skillsSection_ok m sk hsk hrm
  simp only [write_monster_to_file, ht, h2, h3, h4, h5, h8, h9, h10, h12, h13,
    h16, h17, h19, exbind_ok]
  rfl

/-- Witness for the amended C2 at the full test record. -/
theorem c2_required_fields_sufficient_witness :
    exOk (write_monster_to_file recFull (some "https://example/x")) = true :=
  c2_required_fields_sufficient recFull
    "Testling" "1" "400" "N" "Medium" "outsider" ⟨"Bestiary", 5⟩ [⟨"Adventure Path #7", 12⟩]
    ⟨.inr [2, 4], some "Dex"⟩
    ⟨[("Perception", some 5), ("Stealth", none)],
      some [("Stealth", .flat 4), ("_other", .raw "+4 on ice"), ("Swim", .nested [("in water", 8)])]⟩
    ⟨14, 12, 10, some [("Dex", .num 2), ("natural", .num 2), ("other", .strs ["shield spell"])]⟩
    [("HP", "13"), ("regeneration_special", "5 (acid)"), ("long", "3d8")] "13" "3d8"
    ⟨1, 2, 3, some "+2 vs fear"⟩
    [("base", .num 30), ("fly", .num 60), ("fly_maneuverability", .txt "good"),
     ("swim", .num 20), ("base_other", .txt "(20 ft. in armor)")]
    ⟨"10", "11", "12", "13", "14", "15"⟩ "+2" "+3" "14" (some "https://example/x")
    rfl rfl rfl rfl rfl rfl rfl rfl rfl rfl rfl rfl rfl rfl rfl rfl rfl rfl rfl rfl rfl rfl rfl

end PF
